import Mathlib

/-!
Shallow embedding of the useless-box controller in `code.py`.

The program is a single-threaded polling loop over global state: an arm
state machine (IDLE / EXTENDING / EXTENDING_PAUSED / RETRACTING), two
previous-sample caches for edge detection, per-cycle pause bookkeeping,
and two motor output pins driven either constantly or by a software-PWM
pulse pair.  Time (`time.monotonic()`) and randomness (`random.random()`,
`random.uniform(...)`) are external: every clock reading and every random
draw made during one loop iteration is passed in explicitly as a field of
`TickInputs`.

Timestamps and durations are integers in milliseconds.  Every time
constant of the source is an integer multiple of 0.001 s (0.008, 0.025,
0.08, 0.2, 0.5, 1.5, 1.0, 2.0 s), and the code only ever compares
differences of clock readings against these constants, so the integer
millisecond scale represents the float arithmetic of the source exactly
on the comparisons that drive control flow, while keeping every
definition evaluable by the kernel.
-/

set_option autoImplicit false

namespace UselessBox

/-- The four string states of the state machine (`IDLE`, `EXTENDING`,
`EXTENDING_PAUSED`, `RETRACTING` in `code.py`), as a closed enum. -/
inductive ArmState where
  | IDLE
  | EXTENDING
  | EXTENDING_PAUSED
  | RETRACTING
deriving DecidableEq, Repr

/-- `MOTOR_ON_TIME = 0.008` (milliseconds). -/
def MOTOR_ON_TIME : ℤ := 8

/-- `MOTOR_OFF_TIME = 0.025` (milliseconds). -/
def MOTOR_OFF_TIME : ℤ := 25

/-- `DELAY_MIN = 0.5` (milliseconds). -/
def DELAY_MIN : ℤ := 500

/-- `DELAY_MAX = 1.5` (milliseconds). -/
def DELAY_MAX : ℤ := 1500

/-- `PAUSE_AFTER_TIME = 0.08` (milliseconds). -/
def PAUSE_AFTER_TIME : ℤ := 80

/-- `PAUSE_DELAY_MIN = 1.0` (milliseconds). -/
def PAUSE_DELAY_MIN : ℤ := 1000

/-- `PAUSE_DELAY_MAX = 2.0` (milliseconds). -/
def PAUSE_DELAY_MAX : ℤ := 2000

/-- The literal `0.2` in `time.sleep(0.2)` before each reversal
(milliseconds). -/
def SETTLE_DELAY : ℤ := 200

/-- `USE_SPEED_CONTROL = True` in the source.  The functions below take
the configuration as an explicit parameter `sc` so that both the pulsed
and the constant configuration can be reasoned about. -/
def USE_SPEED_CONTROL : Bool := true

/-- All mutable globals of `code.py` that the state machine reads or
writes: the arm state, the previous-tick switch samples used for edge
detection, the per-cycle pause bookkeeping, the two motor output pins,
and the software-PWM phase pair. -/
structure Machine where
  current_state : ArmState
  prev_toggle_state : Bool
  prev_microswitch_state : Bool
  extension_start_time : Option ℤ
  should_pause_this_cycle : Bool
  pause_start_time : Option ℤ
  pause_duration : ℤ
  motor_pin_a : Bool
  motor_pin_b : Bool
  motor_pulse_state : Bool
  motor_pulse_last_time : ℤ
deriving DecidableEq, Repr

/-- `motor_stop()`: both pins LOW. -/
def motor_stop (m : Machine) : Machine :=
  { m with motor_pin_a := false, motor_pin_b := false }

/-- `motor_forward()`: pin a LOW, pin b HIGH. -/
def motor_forward (m : Machine) : Machine :=
  { m with motor_pin_a := false, motor_pin_b := true }

/-- `motor_reverse()`: pin a HIGH, pin b LOW. -/
def motor_reverse (m : Machine) : Machine :=
  { m with motor_pin_a := true, motor_pin_b := false }

/-- `motor_forward_pulsed()`.  `current_time` is the value returned by
`time.monotonic()` inside the call.  If the phase period has elapsed the
phase flips and the pins are written (forward pair in the on phase, both
low in the off phase); otherwise nothing is written. -/
def motor_forward_pulsed (m : Machine) (current_time : ℤ) : Machine :=
  if current_time - m.motor_pulse_last_time ≥
      (if m.motor_pulse_state then MOTOR_ON_TIME else MOTOR_OFF_TIME) then
    if !m.motor_pulse_state then
      { m with motor_pulse_state := !m.motor_pulse_state,
               motor_pulse_last_time := current_time,
               motor_pin_a := false, motor_pin_b := true }
    else
      { m with motor_pulse_state := !m.motor_pulse_state,
               motor_pulse_last_time := current_time,
               motor_pin_a := false, motor_pin_b := false }
  else m

/-- `motor_reverse_pulsed()`, mirrored pins. -/
def motor_reverse_pulsed (m : Machine) (current_time : ℤ) : Machine :=
  if current_time - m.motor_pulse_last_time ≥
      (if m.motor_pulse_state then MOTOR_ON_TIME else MOTOR_OFF_TIME) then
    if !m.motor_pulse_state then
      { m with motor_pulse_state := !m.motor_pulse_state,
               motor_pulse_last_time := current_time,
               motor_pin_a := true, motor_pin_b := false }
    else
      { m with motor_pulse_state := !m.motor_pulse_state,
               motor_pulse_last_time := current_time,
               motor_pin_a := false, motor_pin_b := false }
  else m

/-- `set_state(new_state)` (the print is the only other effect). -/
def set_state (m : Machine) (new_state : ArmState) : Machine :=
  { m with current_state := new_state }

/-- `handle_toggle_change(is_high)`.  `sc` is the `USE_SPEED_CONTROL`
configuration.  `randPause` is the outcome of
`random.random() < PAUSE_PROBABILITY`; `tStart` is the
`time.monotonic()` reading taken for `extension_start_time` after the
random start delay; `tFwd` and `tRev` are the clock readings inside the
`motor_forward_pulsed()` and `motor_reverse_pulsed()` calls (the latter
is taken after the `time.sleep(0.2)` settle delay). -/
def handle_toggle_change (sc : Bool) (m : Machine) (is_high : Bool)
    (randPause : Bool) (tStart tFwd tRev : ℤ) : Machine :=
  if is_high then
    if m.current_state = ArmState.IDLE then
      let m1 := { m with should_pause_this_cycle := randPause }
      -- time.sleep(random.uniform(DELAY_MIN, DELAY_MAX)): no state effect
      let m2 := { m1 with extension_start_time := some tStart,
                          pause_start_time := none, pause_duration := 0 }
      let m3 := if sc then motor_forward_pulsed m2 tFwd else motor_forward m2
      set_state m3 ArmState.EXTENDING
    else m
  else
    if m.current_state = ArmState.EXTENDING ∨
        m.current_state = ArmState.EXTENDING_PAUSED then
      let m1 := motor_stop m
      -- time.sleep(0.2)
      let m2 := if sc then motor_reverse_pulsed m1 tRev else motor_reverse m1
      let m3 := set_state m2 ArmState.RETRACTING
      { m3 with extension_start_time := none, should_pause_this_cycle := false,
                pause_start_time := none, pause_duration := 0 }
    else m

/-- `handle_microswitch_pressed()`. -/
def handle_microswitch_pressed (m : Machine) : Machine :=
  if m.current_state = ArmState.RETRACTING then
    let m1 := set_state (motor_stop m) ArmState.IDLE
    { m1 with extension_start_time := none, should_pause_this_cycle := false,
              pause_start_time := none, pause_duration := 0 }
  else if m.current_state = ArmState.EXTENDING ∨
      m.current_state = ArmState.EXTENDING_PAUSED then
    let m1 := set_state (motor_stop m) ArmState.IDLE
    { m1 with extension_start_time := none, should_pause_this_cycle := false,
              pause_start_time := none, pause_duration := 0 }
  else
    if m.current_state = ArmState.IDLE then m
    else
      -- dead for the closed enum; kept to mirror the source
      let m1 := set_state (motor_stop m) ArmState.IDLE
      { m1 with extension_start_time := none, should_pause_this_cycle := false,
                pause_start_time := none, pause_duration := 0 }

/-- `handle_microswitch_released()`.  The list in the source is
`[IDLE, EXTENDING, RETRACTING]`; `EXTENDING_PAUSED` is not in it. -/
def handle_microswitch_released (m : Machine) : Machine :=
  if m.current_state = ArmState.IDLE ∨ m.current_state = ArmState.EXTENDING ∨
      m.current_state = ArmState.RETRACTING then m
  else
    set_state (motor_stop m) ArmState.IDLE

/-- The external values consumed during one iteration of the main loop:
the two sampled input levels, the Bernoulli draw and the uniform pause
duration draw (used only on the branches that consume them), and one
clock reading per `time.monotonic()` call site. -/
structure TickInputs where
  toggle : Bool
  micro : Bool
  randPause : Bool
  dPause : ℤ
  tStart : ℤ
  tFwd1 : ℤ
  tRev1 : ℤ
  tElapsed : ℤ
  tPauseStart : ℤ
  tResume : ℤ
  tFwd3 : ℤ
  tRev4 : ℤ
  tTick5 : ℤ
deriving DecidableEq, Repr

/-- Main loop, toggle edge detection: lines 376 to 378. -/
def loop_toggle_edge (sc : Bool) (m : Machine) (i : TickInputs) : Machine :=
  if i.toggle ≠ m.prev_toggle_state then
    let m1 := handle_toggle_change sc m i.toggle i.randPause i.tStart i.tFwd1 i.tRev1
    { m1 with prev_toggle_state := i.toggle }
  else m

/-- Main loop, pause trigger: lines 383 to 397. -/
def loop_pause_trigger (m : Machine) (i : TickInputs) : Machine :=
  match m.extension_start_time with
  | some t0 =>
    if m.current_state = ArmState.EXTENDING ∧ m.should_pause_this_cycle then
      if i.tElapsed - t0 ≥ PAUSE_AFTER_TIME then
        let m1 := motor_stop m
        let m2 := { m1 with pause_start_time := some i.tPauseStart,
                            pause_duration := i.dPause }
        let m3 := set_state m2 ArmState.EXTENDING_PAUSED
        { m3 with should_pause_this_cycle := false,
                  prev_toggle_state := i.toggle }
      else m
    else m
  | none => m

/-- Main loop, pause wait / resume: lines 400 to 431.  The source guards
are `pause_start_time is not None and pause_duration > 0` and then
`elif pause_start_time is None or pause_duration == 0`. -/
def loop_pause_resume (sc : Bool) (m : Machine) (i : TickInputs) : Machine :=
  if m.current_state = ArmState.EXTENDING_PAUSED then
    let m1 := motor_stop m
    match m1.pause_start_time with
    | some ps =>
      if m1.pause_duration > 0 then
        if m1.pause_duration - (i.tResume - ps) > 0 then
          m1
        else
          let m2 := if sc then motor_forward_pulsed m1 i.tFwd3 else motor_forward m1
          let m3 := set_state m2 ArmState.EXTENDING
          { m3 with pause_start_time := none, pause_duration := 0 }
      else if m1.pause_duration = 0 then
        let m2 := if sc then motor_forward_pulsed m1 i.tFwd3 else motor_forward m1
        let m3 := set_state m2 ArmState.EXTENDING
        { m3 with pause_start_time := none, pause_duration := 0 }
      else m1
    | none =>
      let m2 := if sc then motor_forward_pulsed m1 i.tFwd3 else motor_forward m1
      let m3 := set_state m2 ArmState.EXTENDING
      { m3 with pause_start_time := none, pause_duration := 0 }
  else m

/-- Main loop, continuous toggle-low check while extending or paused:
lines 435 to 450. -/
def loop_toggle_low_check (sc : Bool) (m : Machine) (i : TickInputs) : Machine :=
  if (m.current_state = ArmState.EXTENDING ∨
      m.current_state = ArmState.EXTENDING_PAUSED) ∧ i.toggle = false then
    let m1 := motor_stop m
    -- time.sleep(0.2)
    let m2 := if sc then motor_reverse_pulsed m1 i.tRev4 else motor_reverse m1
    let m3 := set_state m2 ArmState.RETRACTING
    { m3 with prev_toggle_state := i.toggle, extension_start_time := none,
              should_pause_this_cycle := false, pause_start_time := none,
              pause_duration := 0 }
  else m

/-- Main loop, per-tick PWM drive: lines 454 to 459. -/
def loop_motor_tick (sc : Bool) (m : Machine) (i : TickInputs) : Machine :=
  if sc then
    if m.current_state = ArmState.EXTENDING then motor_forward_pulsed m i.tTick5
    else if m.current_state = ArmState.RETRACTING then motor_reverse_pulsed m i.tTick5
    else m
  else m

/-- Main loop, microswitch edge detection: lines 468 to 473.  (The
retracting-release warning at lines 462 to 465 only prints.) -/
def loop_microswitch_edge (m : Machine) (i : TickInputs) : Machine :=
  if i.micro = true ∧ m.prev_microswitch_state = false then
    let m1 := handle_microswitch_pressed m
    { m1 with prev_microswitch_state := i.micro }
  else if i.micro = false ∧ m.prev_microswitch_state = true then
    let m1 := handle_microswitch_released m
    { m1 with prev_microswitch_state := i.micro }
  else m

/-- One full iteration of `while True`, in source order. -/
def tick (sc : Bool) (m : Machine) (i : TickInputs) : Machine :=
  let m1 := loop_toggle_edge sc m i
  let m2 := loop_pause_trigger m1 i
  let m3 := loop_pause_resume sc m2 i
  let m4 := loop_toggle_low_check sc m3 i
  let m5 := loop_motor_tick sc m4 i
  loop_microswitch_edge m5 i

/-- The state after the initialization block (lines 350 to 361): motor
stopped, state IDLE, previous samples set to the initial reads `t0` and
`m0`, timing cleared, pulse pair at its module-level initial values. -/
def initMachine (t0 m0 : Bool) : Machine :=
  { current_state := ArmState.IDLE
    prev_toggle_state := t0
    prev_microswitch_state := m0
    extension_start_time := none
    should_pause_this_cycle := false
    pause_start_time := none
    pause_duration := 0
    motor_pin_a := false
    motor_pin_b := false
    motor_pulse_state := false
    motor_pulse_last_time := 0 }

/-- Running the polling loop over a list of per-tick inputs. -/
def run (sc : Bool) (m : Machine) (inputs : List TickInputs) : Machine :=
  inputs.foldl (tick sc) m

/-! ### Invariant predicates and concrete example states -/

/-- `should_pause_this_cycle` can be true only while the arm is
extending: the flag is armed at the Idle to Extending transition and
consumed or cleared before the state leaves `EXTENDING`. -/
def InvPause (m : Machine) : Prop :=
  m.should_pause_this_cycle = true → m.current_state = ArmState.EXTENDING

/-- The previous-toggle cache invariant: whenever the arm is extending
or paused, the cached previous toggle sample is high.  This holds after
every tick, whatever the machine it started from. -/
def InvPrevToggle (m : Machine) : Prop :=
  (m.current_state = ArmState.EXTENDING ∨
    m.current_state = ArmState.EXTENDING_PAUSED) → m.prev_toggle_state = true

/-- Whenever the machine rests in `IDLE` or `EXTENDING_PAUSED`, both
motor pins are low: the driver never leaves a direction asserted in
either stationary state. -/
def InvMotorIdle (m : Machine) : Prop :=
  (m.current_state = ArmState.IDLE ∨
    m.current_state = ArmState.EXTENDING_PAUSED) →
    m.motor_pin_a = false ∧ m.motor_pin_b = false

/-- The two motor pins are never both high. -/
def InvNotBoth (m : Machine) : Prop :=
  ¬(m.motor_pin_a = true ∧ m.motor_pin_b = true)

/-- Whenever the machine rests in `EXTENDING_PAUSED`, the pause timing
is set: `pause_start_time` holds a timestamp and `pause_duration` is at
least `PAUSE_DELAY_MIN`. -/
def InvPauseTiming (m : Machine) : Prop :=
  m.current_state = ArmState.EXTENDING_PAUSED →
    m.pause_start_time ≠ none ∧ PAUSE_DELAY_MIN ≤ m.pause_duration

def c1mach : Machine :=
  { current_state := ArmState.EXTENDING, prev_toggle_state := true,
    prev_microswitch_state := true, extension_start_time := some 0,
    should_pause_this_cycle := false, pause_start_time := none,
    pause_duration := 0, motor_pin_a := false, motor_pin_b := true,
    motor_pulse_state := true, motor_pulse_last_time := 0 }

def c1wmach : Machine :=
  { current_state := ArmState.EXTENDING, prev_toggle_state := true,
    prev_microswitch_state := true, extension_start_time := some 0,
    should_pause_this_cycle := false, pause_start_time := none,
    pause_duration := 0, motor_pin_a := false, motor_pin_b := false,
    motor_pulse_state := false, motor_pulse_last_time := 0 }

def c2mach : Machine :=
  { current_state := ArmState.RETRACTING, prev_toggle_state := false,
    prev_microswitch_state := false, extension_start_time := some 5,
    should_pause_this_cycle := false, pause_start_time := none,
    pause_duration := 0, motor_pin_a := true, motor_pin_b := false,
    motor_pulse_state := true, motor_pulse_last_time := 7 }

def c7mach : Machine :=
  { current_state := ArmState.EXTENDING_PAUSED, prev_toggle_state := true,
    prev_microswitch_state := true, extension_start_time := some 0,
    should_pause_this_cycle := false, pause_start_time := some 100,
    pause_duration := 1500, motor_pin_a := false, motor_pin_b := false,
    motor_pulse_state := false, motor_pulse_last_time := 0 }

def c7wmach : Machine :=
  { current_state := ArmState.EXTENDING, prev_toggle_state := true,
    prev_microswitch_state := true, extension_start_time := some 0,
    should_pause_this_cycle := true, pause_start_time := none,
    pause_duration := 0, motor_pin_a := false, motor_pin_b := true,
    motor_pulse_state := false, motor_pulse_last_time := 0 }

def c8mach : Machine :=
  { current_state := ArmState.EXTENDING, prev_toggle_state := true,
    prev_microswitch_state := false, extension_start_time := some 0,
    should_pause_this_cycle := false, pause_start_time := none,
    pause_duration := 0, motor_pin_a := false, motor_pin_b := true,
    motor_pulse_state := true, motor_pulse_last_time := 0 }

def c5i1 : TickInputs :=
  { toggle := true, micro := true, randPause := true, dPause := 1500,
    tStart := 600, tFwd1 := 600, tRev1 := 600, tElapsed := 610,
    tPauseStart := 610, tResume := 610, tFwd3 := 610,
    tRev4 := 610, tTick5 := 610 }

def c5i2 : TickInputs :=
  { toggle := true, micro := true, randPause := true, dPause := 1500,
    tStart := 700, tFwd1 := 700, tRev1 := 700, tElapsed := 700,
    tPauseStart := 700, tResume := 700, tFwd3 := 700,
    tRev4 := 700, tTick5 := 700 }

def c5w : TickInputs :=
  { toggle := false, micro := true, randPause := false, dPause := 1500,
    tStart := 0, tFwd1 := 0, tRev1 := 0, tElapsed := 0,
    tPauseStart := 0, tResume := 0, tFwd3 := 0, tRev4 := 0, tTick5 := 0 }

def c3mach : Machine :=
  { current_state := ArmState.EXTENDING, prev_toggle_state := false,
    prev_microswitch_state := false, extension_start_time := some 0,
    should_pause_this_cycle := true, pause_start_time := none,
    pause_duration := 0, motor_pin_a := false, motor_pin_b := true,
    motor_pulse_state := false, motor_pulse_last_time := 0 }

def c3i : TickInputs :=
  { toggle := false, micro := false, randPause := false, dPause := 1700,
    tStart := 0, tFwd1 := 0, tRev1 := 0, tElapsed := 100,
    tPauseStart := 100, tResume := 100, tFwd3 := 100, tRev4 := 100,
    tTick5 := 100 }

def c3pmach : Machine :=
  { current_state := ArmState.EXTENDING_PAUSED, prev_toggle_state := true,
    prev_microswitch_state := true, extension_start_time := some 0,
    should_pause_this_cycle := false, pause_start_time := some 50,
    pause_duration := 1200, motor_pin_a := false, motor_pin_b := false,
    motor_pulse_state := false, motor_pulse_last_time := 0 }

def c3pi : TickInputs :=
  { toggle := false, micro := true, randPause := false, dPause := 1700,
    tStart := 0, tFwd1 := 0, tRev1 := 0, tElapsed := 100,
    tPauseStart := 100, tResume := 100, tFwd3 := 100, tRev4 := 100,
    tTick5 := 100 }

/-! ### Invariants of the reachable states -/

theorem invPause_toggle_edge (sc : Bool) (m : Machine) (i : TickInputs)
    (h : InvPause m) : InvPause (loop_toggle_edge sc m i) := by
  unfold InvPause loop_toggle_edge handle_toggle_change motor_stop motor_forward
    motor_forward_pulsed motor_reverse motor_reverse_pulsed set_state at *
  split_ifs <;> simp_all

theorem invPause_pause_trigger (m : Machine) (i : TickInputs)
    (h : InvPause m) : InvPause (loop_pause_trigger m i) := by
  unfold InvPause loop_pause_trigger motor_stop set_state at *
  cases hext : m.extension_start_time <;> simp_all <;> split_ifs <;> simp_all

theorem invPause_pause_resume (sc : Bool) (m : Machine) (i : TickInputs)
    (h : InvPause m) : InvPause (loop_pause_resume sc m i) := by
  unfold InvPause loop_pause_resume motor_stop motor_forward motor_forward_pulsed
    set_state at *
  split_ifs <;> try simp_all
  all_goals (cases hps : m.pause_start_time <;> simp_all <;> split_ifs <;> simp_all)

theorem invPause_toggle_low_check (sc : Bool) (m : Machine) (i : TickInputs)
    (h : InvPause m) : InvPause (loop_toggle_low_check sc m i) := by
  unfold InvPause loop_toggle_low_check motor_stop motor_reverse motor_reverse_pulsed
    set_state at *
  split_ifs <;> simp_all

theorem invPause_motor_tick (sc : Bool) (m : Machine) (i : TickInputs)
    (h : InvPause m) : InvPause (loop_motor_tick sc m i) := by
  unfold InvPause loop_motor_tick motor_forward_pulsed motor_reverse_pulsed at *
  split_ifs <;> simp_all

theorem invPause_microswitch_edge (m : Machine) (i : TickInputs)
    (h : InvPause m) : InvPause (loop_microswitch_edge m i) := by
  unfold InvPause loop_microswitch_edge handle_microswitch_pressed
    handle_microswitch_released motor_stop set_state at *
  split_ifs <;> simp_all

theorem invPause_tick (sc : Bool) (m : Machine) (i : TickInputs)
    (h : InvPause m) : InvPause (tick sc m i) :=
  invPause_microswitch_edge _ i <| invPause_motor_tick sc _ i <|
    invPause_toggle_low_check sc _ i <| invPause_pause_resume sc _ i <|
      invPause_pause_trigger _ i <| invPause_toggle_edge sc m i h

theorem invPause_run (sc : Bool) (m : Machine) (inputs : List TickInputs)
    (h : InvPause m) : InvPause (run sc m inputs) := by
  induction inputs generalizing m with
  | nil => exact h
  | cons i rest ih => exact ih _ (invPause_tick sc m i h)

/-! ### Characterizations of the motor primitives -/

theorem motor_forward_pulsed_control (m : Machine) (t : ℤ) :
    (motor_forward_pulsed m t).current_state = m.current_state ∧
    (motor_forward_pulsed m t).prev_toggle_state = m.prev_toggle_state ∧
    (motor_forward_pulsed m t).prev_microswitch_state = m.prev_microswitch_state ∧
    (motor_forward_pulsed m t).extension_start_time = m.extension_start_time ∧
    (motor_forward_pulsed m t).should_pause_this_cycle = m.should_pause_this_cycle ∧
    (motor_forward_pulsed m t).pause_start_time = m.pause_start_time ∧
    (motor_forward_pulsed m t).pause_duration = m.pause_duration := by
  unfold motor_forward_pulsed
  split_ifs <;> simp_all

theorem motor_reverse_pulsed_control (m : Machine) (t : ℤ) :
    (motor_reverse_pulsed m t).current_state = m.current_state ∧
    (motor_reverse_pulsed m t).prev_toggle_state = m.prev_toggle_state ∧
    (motor_reverse_pulsed m t).prev_microswitch_state = m.prev_microswitch_state ∧
    (motor_reverse_pulsed m t).extension_start_time = m.extension_start_time ∧
    (motor_reverse_pulsed m t).should_pause_this_cycle = m.should_pause_this_cycle ∧
    (motor_reverse_pulsed m t).pause_start_time = m.pause_start_time ∧
    (motor_reverse_pulsed m t).pause_duration = m.pause_duration := by
  unfold motor_reverse_pulsed
  split_ifs <;> simp_all

theorem motor_forward_pulsed_pin_a (m : Machine) (t : ℤ)
    (h : m.motor_pin_a = false) : (motor_forward_pulsed m t).motor_pin_a = false := by
  unfold motor_forward_pulsed
  split_ifs <;> simp_all

theorem motor_reverse_pulsed_pin_b (m : Machine) (t : ℤ)
    (h : m.motor_pin_b = false) : (motor_reverse_pulsed m t).motor_pin_b = false := by
  unfold motor_reverse_pulsed
  split_ifs <;> simp_all

/-- When at least the longer of the two phase periods has elapsed, the
pulsed reverse call always flips the phase and writes the pins: the
reverse pair if the phase lands on, both low if it lands off. -/
theorem motor_reverse_pulsed_flip (m : Machine) (t : ℤ)
    (h : m.motor_pulse_last_time + SETTLE_DELAY ≤ t) :
    (motor_reverse_pulsed m t).motor_pin_a = !m.motor_pulse_state ∧
    (motor_reverse_pulsed m t).motor_pin_b = false ∧
    (motor_reverse_pulsed m t).motor_pulse_state = !m.motor_pulse_state := by
  unfold motor_reverse_pulsed MOTOR_ON_TIME MOTOR_OFF_TIME
  unfold SETTLE_DELAY at h
  split_ifs with h1 h2 h2 <;> simp_all <;> omega

/-! ### Preconditioned characterizations of the loop steps -/

theorem toggle_edge_skip (sc : Bool) (m : Machine) (i : TickInputs)
    (h : i.toggle = m.prev_toggle_state) : loop_toggle_edge sc m i = m := by
  unfold loop_toggle_edge
  simp [h]

theorem toggle_edge_high_idle (sc : Bool) (m : Machine) (i : TickInputs)
    (h1 : i.toggle = true) (h2 : m.prev_toggle_state = false)
    (h3 : m.current_state = ArmState.IDLE) :
    (loop_toggle_edge sc m i).current_state = ArmState.EXTENDING ∧
    (loop_toggle_edge sc m i).prev_toggle_state = true ∧
    (loop_toggle_edge sc m i).prev_microswitch_state = m.prev_microswitch_state ∧
    (loop_toggle_edge sc m i).extension_start_time = some i.tStart ∧
    (loop_toggle_edge sc m i).should_pause_this_cycle = i.randPause ∧
    (loop_toggle_edge sc m i).pause_start_time = none ∧
    (loop_toggle_edge sc m i).pause_duration = 0 := by
  unfold loop_toggle_edge handle_toggle_change motor_forward motor_forward_pulsed set_state
  split_ifs <;> simp_all <;> try (split_ifs <;> simp_all)

theorem toggle_edge_high_other (sc : Bool) (m : Machine) (i : TickInputs)
    (h1 : i.toggle = true) (h2 : m.prev_toggle_state = false)
    (h3 : m.current_state ≠ ArmState.IDLE) :
    loop_toggle_edge sc m i = { m with prev_toggle_state := true } := by
  unfold loop_toggle_edge handle_toggle_change
  split_ifs <;> simp_all

theorem toggle_edge_low_fire (sc : Bool) (m : Machine) (i : TickInputs)
    (h1 : i.toggle = false) (h2 : m.prev_toggle_state = true)
    (h3 : m.current_state = ArmState.EXTENDING ∨
      m.current_state = ArmState.EXTENDING_PAUSED) :
    (loop_toggle_edge sc m i).current_state = ArmState.RETRACTING ∧
    (loop_toggle_edge sc m i).prev_toggle_state = false ∧
    (loop_toggle_edge sc m i).prev_microswitch_state = m.prev_microswitch_state ∧
    (loop_toggle_edge sc m i).extension_start_time = none ∧
    (loop_toggle_edge sc m i).should_pause_this_cycle = false ∧
    (loop_toggle_edge sc m i).pause_start_time = none ∧
    (loop_toggle_edge sc m i).pause_duration = 0 ∧
    (loop_toggle_edge sc m i).motor_pin_b = false := by
  unfold loop_toggle_edge handle_toggle_change motor_stop motor_reverse
    motor_reverse_pulsed set_state
  rcases h3 with h3 | h3 <;> split_ifs <;> simp_all <;> try (split_ifs <;> simp_all)

theorem toggle_edge_low_skip (sc : Bool) (m : Machine) (i : TickInputs)
    (h1 : i.toggle = false) (h2 : m.prev_toggle_state = true)
    (h3 : ¬(m.current_state = ArmState.EXTENDING ∨
      m.current_state = ArmState.EXTENDING_PAUSED)) :
    loop_toggle_edge sc m i = { m with prev_toggle_state := false } := by
  unfold loop_toggle_edge handle_toggle_change
  split_ifs <;> simp_all

theorem pause_trigger_skip_state (m : Machine) (i : TickInputs)
    (h : m.current_state ≠ ArmState.EXTENDING) : loop_pause_trigger m i = m := by
  unfold loop_pause_trigger
  cases hext : m.extension_start_time <;> simp_all

theorem pause_trigger_skip_sp (m : Machine) (i : TickInputs)
    (h : m.should_pause_this_cycle = false) : loop_pause_trigger m i = m := by
  unfold loop_pause_trigger
  cases hext : m.extension_start_time <;> simp_all

theorem pause_trigger_skip_ext (m : Machine) (i : TickInputs)
    (h : m.extension_start_time = none) : loop_pause_trigger m i = m := by
  unfold loop_pause_trigger
  simp [h]

theorem pause_trigger_skip_time (m : Machine) (i : TickInputs) (t0 : ℤ)
    (h : m.extension_start_time = some t0) (ht : i.tElapsed - t0 < PAUSE_AFTER_TIME) :
    loop_pause_trigger m i = m := by
  unfold loop_pause_trigger
  rw [h]
  dsimp only
  split_ifs with h1 h2 <;> try rfl
  exfalso
  unfold PAUSE_AFTER_TIME at ht h2
  omega

theorem pause_trigger_fire (m : Machine) (i : TickInputs) (t0 : ℤ)
    (h1 : m.current_state = ArmState.EXTENDING) (h2 : m.should_pause_this_cycle = true)
    (h3 : m.extension_start_time = some t0)
    (h4 : PAUSE_AFTER_TIME ≤ i.tElapsed - t0) :
    loop_pause_trigger m i =
      { m with motor_pin_a := false, motor_pin_b := false,
               pause_start_time := some i.tPauseStart, pause_duration := i.dPause,
               current_state := ArmState.EXTENDING_PAUSED,
               should_pause_this_cycle := false, prev_toggle_state := i.toggle } := by
  unfold loop_pause_trigger motor_stop set_state
  rw [h3]
  split_ifs <;> simp_all

theorem pause_resume_skip (sc : Bool) (m : Machine) (i : TickInputs)
    (h : m.current_state ≠ ArmState.EXTENDING_PAUSED) :
    loop_pause_resume sc m i = m := by
  unfold loop_pause_resume
  simp [h]

theorem pause_resume_wait (sc : Bool) (m : Machine) (i : TickInputs) (p : ℤ)
    (h : m.current_state = ArmState.EXTENDING_PAUSED)
    (hp : m.pause_start_time = some p) (hd : 0 < m.pause_duration)
    (hw : 0 < m.pause_duration - (i.tResume - p)) :
    loop_pause_resume sc m i = motor_stop m := by
  unfold loop_pause_resume motor_stop
  rw [if_pos h]
  dsimp only
  rw [hp]
  dsimp only
  split_ifs <;> simp_all

/-- While in `EXTENDING_PAUSED` the pause handler either keeps waiting
(result is exactly `motor_stop m`) or resumes: state back to
`EXTENDING`, pause timing cleared, everything else it owns untouched,
and pin a low (the forward command never drives pin a). -/
theorem pause_resume_cases (sc : Bool) (m : Machine) (i : TickInputs)
    (h : m.current_state = ArmState.EXTENDING_PAUSED) :
    loop_pause_resume sc m i = motor_stop m ∨
    ((loop_pause_resume sc m i).current_state = ArmState.EXTENDING ∧
     (loop_pause_resume sc m i).pause_start_time = none ∧
     (loop_pause_resume sc m i).pause_duration = 0 ∧
     (loop_pause_resume sc m i).should_pause_this_cycle = m.should_pause_this_cycle ∧
     (loop_pause_resume sc m i).prev_toggle_state = m.prev_toggle_state ∧
     (loop_pause_resume sc m i).prev_microswitch_state = m.prev_microswitch_state ∧
     (loop_pause_resume sc m i).extension_start_time = m.extension_start_time ∧
     (loop_pause_resume sc m i).motor_pin_a = false) := by
  unfold loop_pause_resume motor_stop motor_forward motor_forward_pulsed set_state
  rw [if_pos h]
  dsimp only
  cases hps : m.pause_start_time <;> dsimp only <;> split_ifs <;> simp_all

theorem toggle_low_skip_state (sc : Bool) (m : Machine) (i : TickInputs)
    (h : ¬(m.current_state = ArmState.EXTENDING ∨
      m.current_state = ArmState.EXTENDING_PAUSED)) :
    loop_toggle_low_check sc m i = m := by
  unfold loop_toggle_low_check
  simp [h]

theorem toggle_low_skip_toggle (sc : Bool) (m : Machine) (i : TickInputs)
    (h : i.toggle = true) :
    loop_toggle_low_check sc m i = m := by
  unfold loop_toggle_low_check
  simp [h]

theorem toggle_low_fire (sc : Bool) (m : Machine) (i : TickInputs)
    (h : m.current_state = ArmState.EXTENDING ∨
      m.current_state = ArmState.EXTENDING_PAUSED)
    (ht : i.toggle = false) :
    (loop_toggle_low_check sc m i).current_state = ArmState.RETRACTING ∧
    (loop_toggle_low_check sc m i).prev_toggle_state = false ∧
    (loop_toggle_low_check sc m i).prev_microswitch_state = m.prev_microswitch_state ∧
    (loop_toggle_low_check sc m i).extension_start_time = none ∧
    (loop_toggle_low_check sc m i).should_pause_this_cycle = false ∧
    (loop_toggle_low_check sc m i).pause_start_time = none ∧
    (loop_toggle_low_check sc m i).pause_duration = 0 ∧
    (loop_toggle_low_check sc m i).motor_pin_b = false := by
  unfold loop_toggle_low_check motor_stop motor_reverse motor_reverse_pulsed set_state
  split_ifs <;> simp_all <;> try (split_ifs <;> simp_all)

theorem motor_tick_control (sc : Bool) (m : Machine) (i : TickInputs) :
    (loop_motor_tick sc m i).current_state = m.current_state ∧
    (loop_motor_tick sc m i).prev_toggle_state = m.prev_toggle_state ∧
    (loop_motor_tick sc m i).prev_microswitch_state = m.prev_microswitch_state ∧
    (loop_motor_tick sc m i).extension_start_time = m.extension_start_time ∧
    (loop_motor_tick sc m i).should_pause_this_cycle = m.should_pause_this_cycle ∧
    (loop_motor_tick sc m i).pause_start_time = m.pause_start_time ∧
    (loop_motor_tick sc m i).pause_duration = m.pause_duration := by
  unfold loop_motor_tick motor_forward_pulsed motor_reverse_pulsed
  split_ifs <;> simp_all

theorem motor_tick_skip (sc : Bool) (m : Machine) (i : TickInputs)
    (h1 : m.current_state ≠ ArmState.EXTENDING)
    (h2 : m.current_state ≠ ArmState.RETRACTING) :
    loop_motor_tick sc m i = m := by
  unfold loop_motor_tick
  split_ifs <;> simp_all

theorem micro_edge_skip (m : Machine) (i : TickInputs)
    (h : i.micro = m.prev_microswitch_state) :
    loop_microswitch_edge m i = m := by
  unfold loop_microswitch_edge
  split_ifs <;> simp_all

theorem micro_edge_press_active (m : Machine) (i : TickInputs)
    (h1 : i.micro = true) (h2 : m.prev_microswitch_state = false)
    (h3 : m.current_state = ArmState.RETRACTING ∨
      m.current_state = ArmState.EXTENDING ∨
      m.current_state = ArmState.EXTENDING_PAUSED) :
    loop_microswitch_edge m i =
      { m with motor_pin_a := false, motor_pin_b := false,
               current_state := ArmState.IDLE, extension_start_time := none,
               should_pause_this_cycle := false, pause_start_time := none,
               pause_duration := 0, prev_microswitch_state := true } := by
  unfold loop_microswitch_edge handle_microswitch_pressed motor_stop set_state
  rcases h3 with h3 | h3 | h3 <;> split_ifs <;> simp_all

theorem micro_edge_press_idle (m : Machine) (i : TickInputs)
    (h1 : i.micro = true) (h2 : m.prev_microswitch_state = false)
    (h3 : m.current_state = ArmState.IDLE) :
    loop_microswitch_edge m i = { m with prev_microswitch_state := true } := by
  unfold loop_microswitch_edge handle_microswitch_pressed motor_stop set_state
  split_ifs <;> simp_all

theorem micro_edge_release_expected (m : Machine) (i : TickInputs)
    (h1 : i.micro = false) (h2 : m.prev_microswitch_state = true)
    (h3 : m.current_state = ArmState.IDLE ∨ m.current_state = ArmState.EXTENDING ∨
      m.current_state = ArmState.RETRACTING) :
    loop_microswitch_edge m i = { m with prev_microswitch_state := false } := by
  unfold loop_microswitch_edge handle_microswitch_released motor_stop set_state
  split_ifs <;> simp_all

theorem micro_edge_release_paused (m : Machine) (i : TickInputs)
    (h1 : i.micro = false) (h2 : m.prev_microswitch_state = true)
    (h3 : m.current_state = ArmState.EXTENDING_PAUSED) :
    loop_microswitch_edge m i =
      { m with motor_pin_a := false, motor_pin_b := false,
               current_state := ArmState.IDLE, prev_microswitch_state := false } := by
  unfold loop_microswitch_edge handle_microswitch_released motor_stop set_state
  split_ifs <;> simp_all

/-! ### Tracking of the previous-toggle cache within a tick -/

theorem toggle_edge_prev_eq (sc : Bool) (m : Machine) (i : TickInputs) :
    (loop_toggle_edge sc m i).prev_toggle_state = i.toggle := by
  unfold loop_toggle_edge handle_toggle_change motor_stop motor_forward
    motor_forward_pulsed motor_reverse motor_reverse_pulsed set_state
  split_ifs <;> simp_all

theorem pause_trigger_prev_eq (m : Machine) (i : TickInputs)
    (h : m.prev_toggle_state = i.toggle) :
    (loop_pause_trigger m i).prev_toggle_state = i.toggle := by
  unfold loop_pause_trigger motor_stop set_state
  cases hext : m.extension_start_time <;> simp_all <;> split_ifs <;> simp_all

theorem pause_resume_prev_eq (sc : Bool) (m : Machine) (i : TickInputs) :
    (loop_pause_resume sc m i).prev_toggle_state = m.prev_toggle_state := by
  unfold loop_pause_resume motor_stop motor_forward motor_forward_pulsed set_state
  split_ifs <;> try rfl
  all_goals (cases hps : m.pause_start_time <;> simp_all <;> split_ifs <;> simp_all)

theorem toggle_low_prev_eq (sc : Bool) (m : Machine) (i : TickInputs)
    (h : m.prev_toggle_state = i.toggle) :
    (loop_toggle_low_check sc m i).prev_toggle_state = i.toggle := by
  unfold loop_toggle_low_check motor_stop motor_reverse motor_reverse_pulsed set_state
  split_ifs <;> simp_all <;> try (split_ifs <;> simp_all)

theorem micro_edge_prev_toggle_eq (m : Machine) (i : TickInputs) :
    (loop_microswitch_edge m i).prev_toggle_state = m.prev_toggle_state := by
  unfold loop_microswitch_edge handle_microswitch_pressed handle_microswitch_released
    motor_stop set_state
  split_ifs <;> simp_all

/-- At the end of every tick the previous-toggle cache equals the level
sampled during that tick. -/
theorem tick_prev_toggle (sc : Bool) (m : Machine) (i : TickInputs) :
    (tick sc m i).prev_toggle_state = i.toggle := by
  have h1 := toggle_edge_prev_eq sc m i
  have h2 := pause_trigger_prev_eq (loop_toggle_edge sc m i) i h1
  have h3 := pause_resume_prev_eq sc (loop_pause_trigger (loop_toggle_edge sc m i) i) i
  rw [h2] at h3
  have h4 := toggle_low_prev_eq sc
    (loop_pause_resume sc (loop_pause_trigger (loop_toggle_edge sc m i) i) i) i h3
  have h5 := (motor_tick_control sc
    (loop_toggle_low_check sc
      (loop_pause_resume sc (loop_pause_trigger (loop_toggle_edge sc m i) i) i) i) i).2.1
  rw [h4] at h5
  have h6 := micro_edge_prev_toggle_eq
    (loop_motor_tick sc
      (loop_toggle_low_check sc
        (loop_pause_resume sc (loop_pause_trigger (loop_toggle_edge sc m i) i) i) i) i) i
  rw [h5] at h6
  exact h6

/-! ### State shape after the later steps of a tick -/

theorem micro_edge_state_cases (m : Machine) (i : TickInputs) :
    (loop_microswitch_edge m i).current_state = m.current_state ∨
    (loop_microswitch_edge m i).current_state = ArmState.IDLE := by
  unfold loop_microswitch_edge handle_microswitch_pressed handle_microswitch_released
    motor_stop set_state
  split_ifs <;> simp_all

/-- With a low toggle sample, the continuous toggle-low check guarantees
that the state after it is neither `EXTENDING` nor `EXTENDING_PAUSED`. -/
theorem toggle_low_post_state (sc : Bool) (m : Machine) (i : TickInputs)
    (ht : i.toggle = false) :
    ¬((loop_toggle_low_check sc m i).current_state = ArmState.EXTENDING ∨
      (loop_toggle_low_check sc m i).current_state = ArmState.EXTENDING_PAUSED) := by
  by_cases hst : m.current_state = ArmState.EXTENDING ∨
      m.current_state = ArmState.EXTENDING_PAUSED
  · have := (toggle_low_fire sc m i hst ht).1
    simp [this]
  · rw [toggle_low_skip_state sc m i hst]
    exact hst

theorem invPrevToggle_tick (sc : Bool) (m : Machine) (i : TickInputs) :
    InvPrevToggle (tick sc m i) := by
  intro hst
  cases htog : i.toggle
  · exfalso
    have h4 := toggle_low_post_state sc
      (loop_pause_resume sc (loop_pause_trigger (loop_toggle_edge sc m i) i) i) i htog
    have h5 := (motor_tick_control sc
      (loop_toggle_low_check sc
        (loop_pause_resume sc (loop_pause_trigger (loop_toggle_edge sc m i) i) i) i) i).1
    have h7 := micro_edge_state_cases
      (loop_motor_tick sc
        (loop_toggle_low_check sc
          (loop_pause_resume sc (loop_pause_trigger (loop_toggle_edge sc m i) i) i) i) i) i
    unfold tick at hst
    rcases h7 with h7 | h7 <;> rw [h7] at hst
    · rw [h5] at hst
      exact h4 hst
    · rcases hst with hst | hst <;> simp at hst
  · rw [tick_prev_toggle]
    exact htog

theorem invPrevToggle_init (t0 m0 : Bool) : InvPrevToggle (initMachine t0 m0) := by
  intro hst
  rcases hst with hst | hst <;> simp [initMachine] at hst

theorem invPrevToggle_run (sc t0 m0 : Bool) (inputs : List TickInputs) :
    InvPrevToggle (run sc (initMachine t0 m0) inputs) := by
  induction inputs using List.reverseRecOn with
  | nil => exact invPrevToggle_init t0 m0
  | append_singleton rest i ih =>
    unfold run at *
    rw [List.foldl_append]
    exact invPrevToggle_tick sc _ i

/-! ### Motor output invariants -/

theorem invMotorIdle_toggle_edge (sc : Bool) (m : Machine) (i : TickInputs)
    (h : InvMotorIdle m) : InvMotorIdle (loop_toggle_edge sc m i) := by
  unfold InvMotorIdle loop_toggle_edge handle_toggle_change motor_stop motor_forward
    motor_forward_pulsed motor_reverse motor_reverse_pulsed set_state at *
  split_ifs <;> simp_all <;> try (split_ifs <;> simp_all)

theorem invMotorIdle_pause_trigger (m : Machine) (i : TickInputs)
    (h : InvMotorIdle m) : InvMotorIdle (loop_pause_trigger m i) := by
  unfold InvMotorIdle loop_pause_trigger motor_stop set_state at *
  cases hext : m.extension_start_time <;> simp_all <;> split_ifs <;> simp_all

theorem invMotorIdle_pause_resume (sc : Bool) (m : Machine) (i : TickInputs)
    (h : InvMotorIdle m) : InvMotorIdle (loop_pause_resume sc m i) := by
  unfold InvMotorIdle loop_pause_resume motor_stop motor_forward motor_forward_pulsed
    set_state at *
  split_ifs <;> try simp_all
  all_goals (cases hps : m.pause_start_time <;> simp_all <;> split_ifs <;> simp_all)

theorem invMotorIdle_toggle_low_check (sc : Bool) (m : Machine) (i : TickInputs)
    (h : InvMotorIdle m) : InvMotorIdle (loop_toggle_low_check sc m i) := by
  unfold InvMotorIdle loop_toggle_low_check motor_stop motor_reverse motor_reverse_pulsed
    set_state at *
  split_ifs <;> simp_all <;> try (split_ifs <;> simp_all)

theorem invMotorIdle_motor_tick (sc : Bool) (m : Machine) (i : TickInputs)
    (h : InvMotorIdle m) : InvMotorIdle (loop_motor_tick sc m i) := by
  unfold InvMotorIdle loop_motor_tick motor_forward_pulsed motor_reverse_pulsed at *
  split_ifs <;> simp_all

theorem invMotorIdle_microswitch_edge (m : Machine) (i : TickInputs)
    (h : InvMotorIdle m) : InvMotorIdle (loop_microswitch_edge m i) := by
  unfold InvMotorIdle loop_microswitch_edge handle_microswitch_pressed
    handle_microswitch_released motor_stop set_state at *
  split_ifs <;> simp_all

theorem invMotorIdle_tick (sc : Bool) (m : Machine) (i : TickInputs)
    (h : InvMotorIdle m) : InvMotorIdle (tick sc m i) :=
  invMotorIdle_microswitch_edge _ i <| invMotorIdle_motor_tick sc _ i <|
    invMotorIdle_toggle_low_check sc _ i <| invMotorIdle_pause_resume sc _ i <|
      invMotorIdle_pause_trigger _ i <| invMotorIdle_toggle_edge sc m i h

theorem invMotorIdle_run (sc : Bool) (m : Machine) (inputs : List TickInputs)
    (h : InvMotorIdle m) : InvMotorIdle (run sc m inputs) := by
  induction inputs generalizing m with
  | nil => exact h
  | cons i rest ih => exact ih _ (invMotorIdle_tick sc m i h)

theorem invNotBoth_toggle_edge (sc : Bool) (m : Machine) (i : TickInputs)
    (h : InvNotBoth m) : InvNotBoth (loop_toggle_edge sc m i) := by
  unfold InvNotBoth loop_toggle_edge handle_toggle_change motor_stop motor_forward
    motor_forward_pulsed motor_reverse motor_reverse_pulsed set_state at *
  split_ifs <;> simp_all <;> try (split_ifs <;> simp_all)

theorem invNotBoth_pause_trigger (m : Machine) (i : TickInputs)
    (h : InvNotBoth m) : InvNotBoth (loop_pause_trigger m i) := by
  unfold InvNotBoth loop_pause_trigger motor_stop set_state at *
  cases hext : m.extension_start_time <;> simp_all <;> split_ifs <;> simp_all

theorem invNotBoth_pause_resume (sc : Bool) (m : Machine) (i : TickInputs)
    (h : InvNotBoth m) : InvNotBoth (loop_pause_resume sc m i) := by
  unfold InvNotBoth loop_pause_resume motor_stop motor_forward motor_forward_pulsed
    set_state at *
  split_ifs <;> try simp_all
  all_goals (cases hps : m.pause_start_time <;> simp_all <;> split_ifs <;> simp_all)

theorem invNotBoth_toggle_low_check (sc : Bool) (m : Machine) (i : TickInputs)
    (h : InvNotBoth m) : InvNotBoth (loop_toggle_low_check sc m i) := by
  unfold InvNotBoth loop_toggle_low_check motor_stop motor_reverse motor_reverse_pulsed
    set_state at *
  split_ifs <;> simp_all <;> try (split_ifs <;> simp_all)

theorem invNotBoth_motor_tick (sc : Bool) (m : Machine) (i : TickInputs)
    (h : InvNotBoth m) : InvNotBoth (loop_motor_tick sc m i) := by
  unfold InvNotBoth loop_motor_tick motor_forward_pulsed motor_reverse_pulsed at *
  split_ifs <;> simp_all

theorem invNotBoth_microswitch_edge (m : Machine) (i : TickInputs)
    (h : InvNotBoth m) : InvNotBoth (loop_microswitch_edge m i) := by
  unfold InvNotBoth loop_microswitch_edge handle_microswitch_pressed
    handle_microswitch_released motor_stop set_state at *
  split_ifs <;> simp_all

theorem invNotBoth_tick (sc : Bool) (m : Machine) (i : TickInputs)
    (h : InvNotBoth m) : InvNotBoth (tick sc m i) :=
  invNotBoth_microswitch_edge _ i <| invNotBoth_motor_tick sc _ i <|
    invNotBoth_toggle_low_check sc _ i <| invNotBoth_pause_resume sc _ i <|
      invNotBoth_pause_trigger _ i <| invNotBoth_toggle_edge sc m i h

theorem invNotBoth_run (sc : Bool) (m : Machine) (inputs : List TickInputs)
    (h : InvNotBoth m) : InvNotBoth (run sc m inputs) := by
  induction inputs generalizing m with
  | nil => exact h
  | cons i rest ih => exact ih _ (invNotBoth_tick sc m i h)

/-! ### Pause-timing invariant -/

theorem invPauseTiming_toggle_edge (sc : Bool) (m : Machine) (i : TickInputs)
    (h : InvPauseTiming m) : InvPauseTiming (loop_toggle_edge sc m i) := by
  unfold InvPauseTiming loop_toggle_edge handle_toggle_change motor_stop motor_forward
    motor_forward_pulsed motor_reverse motor_reverse_pulsed set_state at *
  split_ifs <;> simp_all <;> try (split_ifs <;> simp_all)

theorem invPauseTiming_pause_trigger (m : Machine) (i : TickInputs)
    (hd : PAUSE_DELAY_MIN ≤ i.dPause)
    (h : InvPauseTiming m) : InvPauseTiming (loop_pause_trigger m i) := by
  unfold InvPauseTiming loop_pause_trigger motor_stop set_state at *
  cases hext : m.extension_start_time <;> simp_all <;> split_ifs <;> simp_all

theorem invPauseTiming_pause_resume (sc : Bool) (m : Machine) (i : TickInputs)
    (h : InvPauseTiming m) : InvPauseTiming (loop_pause_resume sc m i) := by
  unfold InvPauseTiming loop_pause_resume motor_stop motor_forward motor_forward_pulsed
    set_state at *
  split_ifs <;> try simp_all
  all_goals (cases hps : m.pause_start_time <;> simp_all <;> split_ifs <;> simp_all)

theorem invPauseTiming_toggle_low_check (sc : Bool) (m : Machine) (i : TickInputs)
    (h : InvPauseTiming m) : InvPauseTiming (loop_toggle_low_check sc m i) := by
  unfold InvPauseTiming loop_toggle_low_check motor_stop motor_reverse motor_reverse_pulsed
    set_state at *
  split_ifs <;> simp_all <;> try (split_ifs <;> simp_all)

theorem invPauseTiming_motor_tick (sc : Bool) (m : Machine) (i : TickInputs)
    (h : InvPauseTiming m) : InvPauseTiming (loop_motor_tick sc m i) := by
  unfold InvPauseTiming loop_motor_tick motor_forward_pulsed motor_reverse_pulsed at *
  split_ifs <;> simp_all

theorem invPauseTiming_microswitch_edge (m : Machine) (i : TickInputs)
    (h : InvPauseTiming m) : InvPauseTiming (loop_microswitch_edge m i) := by
  unfold InvPauseTiming loop_microswitch_edge handle_microswitch_pressed
    handle_microswitch_released motor_stop set_state at *
  split_ifs <;> simp_all

theorem invPauseTiming_tick (sc : Bool) (m : Machine) (i : TickInputs)
    (hd : PAUSE_DELAY_MIN ≤ i.dPause)
    (h : InvPauseTiming m) : InvPauseTiming (tick sc m i) :=
  invPauseTiming_microswitch_edge _ i <| invPauseTiming_motor_tick sc _ i <|
    invPauseTiming_toggle_low_check sc _ i <| invPauseTiming_pause_resume sc _ i <|
      invPauseTiming_pause_trigger _ i hd <| invPauseTiming_toggle_edge sc m i h

theorem invPauseTiming_run (sc : Bool) (m : Machine) (inputs : List TickInputs)
    (hd : ∀ i ∈ inputs, PAUSE_DELAY_MIN ≤ i.dPause)
    (h : InvPauseTiming m) : InvPauseTiming (run sc m inputs) := by
  induction inputs generalizing m with
  | nil => exact h
  | cons i rest ih =>
    exact ih _ (fun j hj => hd j (List.mem_cons_of_mem i hj))
      (invPauseTiming_tick sc m i (hd i (List.mem_cons_self i rest)) h)

/-! ### Initial-state invariants -/

theorem invPause_init (t0 m0 : Bool) : InvPause (initMachine t0 m0) := by
  intro h
  simp [initMachine] at h

theorem invMotorIdle_init (t0 m0 : Bool) : InvMotorIdle (initMachine t0 m0) := by
  intro _
  exact ⟨rfl, rfl⟩

theorem invNotBoth_init (t0 m0 : Bool) : InvNotBoth (initMachine t0 m0) := by
  intro h
  simp [initMachine] at h

theorem invPauseTiming_init (t0 m0 : Bool) : InvPauseTiming (initMachine t0 m0) := by
  intro h
  simp [initMachine] at h

/-! ### Shape of the pause trigger -/

theorem pause_trigger_cases (m : Machine) (i : TickInputs) :
    loop_pause_trigger m i = m ∨
    (m.current_state = ArmState.EXTENDING ∧ m.should_pause_this_cycle = true ∧
     loop_pause_trigger m i =
       { m with motor_pin_a := false, motor_pin_b := false,
                pause_start_time := some i.tPauseStart, pause_duration := i.dPause,
                current_state := ArmState.EXTENDING_PAUSED,
                should_pause_this_cycle := false, prev_toggle_state := i.toggle }) := by
  unfold loop_pause_trigger motor_stop set_state
  cases hext : m.extension_start_time
  · left; rfl
  · dsimp only
    split_ifs with hc ht
    · right
      exact ⟨hc.1, hc.2, rfl⟩
    · left; rfl
    · left; rfl

/-! ### Which steps can enter the paused state -/

theorem toggle_edge_no_pause_entry (sc : Bool) (m : Machine) (i : TickInputs)
    (h : (loop_toggle_edge sc m i).current_state = ArmState.EXTENDING_PAUSED) :
    m.current_state = ArmState.EXTENDING_PAUSED := by
  unfold loop_toggle_edge handle_toggle_change motor_stop motor_forward
    motor_forward_pulsed motor_reverse motor_reverse_pulsed set_state at h
  split_ifs at h <;> simp_all <;> try (split_ifs at h <;> simp_all)

theorem pause_trigger_entry (m : Machine) (i : TickInputs)
    (h : (loop_pause_trigger m i).current_state = ArmState.EXTENDING_PAUSED)
    (hne : m.current_state ≠ ArmState.EXTENDING_PAUSED) :
    m.current_state = ArmState.EXTENDING ∧ m.should_pause_this_cycle = true ∧
    (loop_pause_trigger m i).should_pause_this_cycle = false := by
  rcases pause_trigger_cases m i with hc | ⟨h1, h2, h3⟩
  · rw [hc] at h
    exact absurd h hne
  · exact ⟨h1, h2, by rw [h3]⟩

theorem pause_resume_no_pause_entry (sc : Bool) (m : Machine) (i : TickInputs)
    (h : (loop_pause_resume sc m i).current_state = ArmState.EXTENDING_PAUSED) :
    m.current_state = ArmState.EXTENDING_PAUSED := by
  by_cases hst : m.current_state = ArmState.EXTENDING_PAUSED
  · exact hst
  · rw [pause_resume_skip sc m i hst] at h
    exact absurd h hst

theorem toggle_low_no_pause_entry (sc : Bool) (m : Machine) (i : TickInputs)
    (h : (loop_toggle_low_check sc m i).current_state = ArmState.EXTENDING_PAUSED) :
    m.current_state = ArmState.EXTENDING_PAUSED := by
  unfold loop_toggle_low_check motor_stop motor_reverse motor_reverse_pulsed set_state at h
  split_ifs at h <;> simp_all <;> try (split_ifs at h <;> simp_all)

theorem motor_tick_no_pause_entry (sc : Bool) (m : Machine) (i : TickInputs)
    (h : (loop_motor_tick sc m i).current_state = ArmState.EXTENDING_PAUSED) :
    m.current_state = ArmState.EXTENDING_PAUSED := by
  rw [(motor_tick_control sc m i).1] at h
  exact h

theorem micro_edge_no_pause_entry (m : Machine) (i : TickInputs)
    (h : (loop_microswitch_edge m i).current_state = ArmState.EXTENDING_PAUSED) :
    m.current_state = ArmState.EXTENDING_PAUSED := by
  rcases micro_edge_state_cases m i with hc | hc <;> rw [hc] at h
  · exact h
  · exact absurd h.symm (by simp)

/-! ### Tracking of the pause flag within a tick -/

theorem toggle_edge_sp (sc : Bool) (m : Machine) (i : TickInputs)
    (h : (loop_toggle_edge sc m i).should_pause_this_cycle = true) :
    m.should_pause_this_cycle = true ∨
    (m.current_state = ArmState.IDLE ∧ i.randPause = true ∧
     (loop_toggle_edge sc m i).current_state = ArmState.EXTENDING) := by
  unfold loop_toggle_edge handle_toggle_change motor_stop motor_forward
    motor_forward_pulsed motor_reverse motor_reverse_pulsed set_state at *
  split_ifs at * <;> simp_all <;> try (split_ifs at * <;> simp_all)

theorem pause_trigger_sp_noop (m : Machine) (i : TickInputs)
    (h : (loop_pause_trigger m i).should_pause_this_cycle = true) :
    loop_pause_trigger m i = m := by
  rcases pause_trigger_cases m i with hc | ⟨_, _, h3⟩
  · exact hc
  · rw [h3] at h
    simp at h

theorem pause_resume_sp_eq (sc : Bool) (m : Machine) (i : TickInputs) :
    (loop_pause_resume sc m i).should_pause_this_cycle = m.should_pause_this_cycle := by
  unfold loop_pause_resume motor_stop motor_forward motor_forward_pulsed set_state
  split_ifs <;> try rfl
  all_goals (cases hps : m.pause_start_time <;> simp_all <;> split_ifs <;> simp_all)

theorem toggle_low_sp_noop (sc : Bool) (m : Machine) (i : TickInputs)
    (h : (loop_toggle_low_check sc m i).should_pause_this_cycle = true) :
    loop_toggle_low_check sc m i = m := by
  by_cases hg : (m.current_state = ArmState.EXTENDING ∨
      m.current_state = ArmState.EXTENDING_PAUSED) ∧ i.toggle = false
  · have := (toggle_low_fire sc m i hg.1 hg.2).2.2.2.2.1
    rw [this] at h
    cases h
  · unfold loop_toggle_low_check
    rw [if_neg hg]

theorem micro_edge_sp_conservative (m : Machine) (i : TickInputs)
    (h : (loop_microswitch_edge m i).should_pause_this_cycle = true) :
    m.should_pause_this_cycle = true := by
  unfold loop_microswitch_edge handle_microswitch_pressed handle_microswitch_released
    motor_stop set_state at h
  split_ifs at h <;> simp_all

theorem micro_edge_sp_state (m : Machine) (i : TickInputs)
    (hst : m.current_state = ArmState.EXTENDING)
    (h : (loop_microswitch_edge m i).should_pause_this_cycle = true) :
    (loop_microswitch_edge m i).current_state = ArmState.EXTENDING := by
  unfold loop_microswitch_edge handle_microswitch_pressed handle_microswitch_released
    motor_stop set_state at *
  split_ifs at * <;> simp_all

/-! ### The reverse sequence after the settle delay -/

/-- The low branch of `handle_toggle_change` as one record expression. -/
theorem handle_toggle_change_low_eq (sc : Bool) (m : Machine) (rp : Bool)
    (t1 t2 t3 : ℤ)
    (h : m.current_state = ArmState.EXTENDING ∨
      m.current_state = ArmState.EXTENDING_PAUSED) :
    handle_toggle_change sc m false rp t1 t2 t3 =
      { (if sc then motor_reverse_pulsed (motor_stop m) t3
         else motor_reverse (motor_stop m)) with
        current_state := ArmState.RETRACTING, extension_start_time := none,
        should_pause_this_cycle := false, pause_start_time := none,
        pause_duration := 0 } := by
  unfold handle_toggle_change set_state
  rw [if_neg (by simp), if_pos h]

/-- The firing branch of the continuous toggle-low check as one record
expression. -/
theorem toggle_low_fire_eq (sc : Bool) (m : Machine) (i : TickInputs)
    (h : m.current_state = ArmState.EXTENDING ∨
      m.current_state = ArmState.EXTENDING_PAUSED)
    (ht : i.toggle = false) :
    loop_toggle_low_check sc m i =
      { (if sc then motor_reverse_pulsed (motor_stop m) i.tRev4
         else motor_reverse (motor_stop m)) with
        current_state := ArmState.RETRACTING, prev_toggle_state := false,
        extension_start_time := none, should_pause_this_cycle := false,
        pause_start_time := none, pause_duration := 0 } := by
  unfold loop_toggle_low_check set_state
  rw [if_pos ⟨h, ht⟩, ht]

/-- C1 (amended): a toggle Low edge or a polled Low level while the arm
is extending or paused always drives the state to `RETRACTING`; after
the 0.2 s settle delay the constant configuration writes the reverse
pair (pin a high, pin b low), while the pulsed configuration flips the
PWM phase: the reverse pair when the phase lands on, both pins low when
it lands off.  Pin b is never driven high on this path. -/
theorem C1_toggle_low_forces_retract (m : Machine) (i : TickInputs)
    (rp : Bool) (t1 t2 t3 : ℤ)
    (h : m.current_state = ArmState.EXTENDING ∨
      m.current_state = ArmState.EXTENDING_PAUSED)
    (hs3 : m.motor_pulse_last_time + SETTLE_DELAY ≤ t3)
    (htog : i.toggle = false)
    (hs4 : m.motor_pulse_last_time + SETTLE_DELAY ≤ i.tRev4) :
    ((handle_toggle_change false m false rp t1 t2 t3).current_state =
        ArmState.RETRACTING ∧
     (handle_toggle_change false m false rp t1 t2 t3).motor_pin_a = true ∧
     (handle_toggle_change false m false rp t1 t2 t3).motor_pin_b = false) ∧
    ((handle_toggle_change true m false rp t1 t2 t3).current_state =
        ArmState.RETRACTING ∧
     (handle_toggle_change true m false rp t1 t2 t3).motor_pin_a =
        !m.motor_pulse_state ∧
     (handle_toggle_change true m false rp t1 t2 t3).motor_pin_b = false) ∧
    ((loop_toggle_low_check false m i).current_state = ArmState.RETRACTING ∧
     (loop_toggle_low_check false m i).motor_pin_a = true ∧
     (loop_toggle_low_check false m i).motor_pin_b = false) ∧
    ((loop_toggle_low_check true m i).current_state = ArmState.RETRACTING ∧
     (loop_toggle_low_check true m i).motor_pin_a = !m.motor_pulse_state ∧
     (loop_toggle_low_check true m i).motor_pin_b = false) := by
  have hf3 := motor_reverse_pulsed_flip (motor_stop m) t3 hs3
  have hf4 := motor_reverse_pulsed_flip (motor_stop m) i.tRev4 hs4
  refine ⟨?_, ?_, ?_, ?_⟩
  · rw [handle_toggle_change_low_eq false m rp t1 t2 t3 h]
    exact ⟨rfl, rfl, rfl⟩
  · rw [handle_toggle_change_low_eq true m rp t1 t2 t3 h]
    exact ⟨rfl, hf3.1, hf3.2.1⟩
  · rw [toggle_low_fire_eq false m i h htog]
    exact ⟨rfl, rfl, rfl⟩
  · rw [toggle_low_fire_eq true m i h htog]
    exact ⟨rfl, hf4.1, hf4.2.1⟩

/-- C1 counterexample: with speed control enabled (the configuration of
the source) and the PWM phase currently on, the settle-delay reverse
call flips the phase off and writes both pins LOW, so the outputs after
the transition encode Stopped, not the claimed Reverse pair. -/
theorem C1_counterexample :
    c1mach.current_state = ArmState.EXTENDING ∧
    c1mach.motor_pulse_last_time + SETTLE_DELAY ≤ 300 ∧
    (handle_toggle_change true c1mach false false 0 0 300).current_state =
      ArmState.RETRACTING ∧
    (handle_toggle_change true c1mach false false 0 0 300).motor_pin_a = false ∧
    (handle_toggle_change true c1mach false false 0 0 300).motor_pin_b = false := by
  decide

/-- C1 witness: the amended theorem applied at a concrete machine whose
PWM phase is off, where the pulsed reverse call does land on the
reverse pair. -/
theorem C1_witness :
    (handle_toggle_change false c1wmach false false 0 0 300).current_state =
      ArmState.RETRACTING ∧
    (handle_toggle_change true c1wmach false false 0 0 300).motor_pin_a = true ∧
    (handle_toggle_change true c1wmach false false 0 0 300).motor_pin_b = false := by
  have h := C1_toggle_low_forces_retract c1wmach
    { toggle := false, micro := true, randPause := false, dPause := 0,
      tStart := 0, tFwd1 := 0, tRev1 := 0, tElapsed := 0, tPauseStart := 0,
      tResume := 0, tFwd3 := 0, tRev4 := 300, tTick5 := 0 }
    false 0 0 300 (Or.inl rfl) (by decide) rfl (by decide)
  exact ⟨h.1.1, h.2.1.2.1, h.2.1.2.2⟩

/-- C2: a limit-switch Released to Pressed edge while retracting stops
the motor (both pins low), moves the state to `IDLE` and resets all
four cycle-timing fields, both at the handler and through the loop edge
dispatch. -/
theorem C2_limit_press_stops_retract (m : Machine) (i : TickInputs)
    (h : m.current_state = ArmState.RETRACTING)
    (h1 : i.micro = true) (h2 : m.prev_microswitch_state = false) :
    ((handle_microswitch_pressed m).current_state = ArmState.IDLE ∧
     (handle_microswitch_pressed m).motor_pin_a = false ∧
     (handle_microswitch_pressed m).motor_pin_b = false ∧
     (handle_microswitch_pressed m).extension_start_time = none ∧
     (handle_microswitch_pressed m).should_pause_this_cycle = false ∧
     (handle_microswitch_pressed m).pause_start_time = none ∧
     (handle_microswitch_pressed m).pause_duration = 0) ∧
    ((loop_microswitch_edge m i).current_state = ArmState.IDLE ∧
     (loop_microswitch_edge m i).motor_pin_a = false ∧
     (loop_microswitch_edge m i).motor_pin_b = false ∧
     (loop_microswitch_edge m i).extension_start_time = none ∧
     (loop_microswitch_edge m i).should_pause_this_cycle = false ∧
     (loop_microswitch_edge m i).pause_start_time = none ∧
     (loop_microswitch_edge m i).pause_duration = 0) := by
  constructor
  · unfold handle_microswitch_pressed motor_stop set_state
    rw [if_pos h]
    exact ⟨rfl, rfl, rfl, rfl, rfl, rfl, rfl⟩
  · rw [micro_edge_press_active m i h1 h2 (Or.inl h)]
    exact ⟨rfl, rfl, rfl, rfl, rfl, rfl, rfl⟩

/-- C2 witness. -/
theorem C2_witness :
    (handle_microswitch_pressed c2mach).current_state = ArmState.IDLE ∧
    (handle_microswitch_pressed c2mach).motor_pin_a = false ∧
    (handle_microswitch_pressed c2mach).pause_start_time = none := by
  have h := C2_limit_press_stops_retract c2mach
    { toggle := false, micro := true, randPause := false, dPause := 0,
      tStart := 0, tFwd1 := 0, tRev1 := 0, tElapsed := 0, tPauseStart := 0,
      tResume := 0, tFwd3 := 0, tRev4 := 0, tTick5 := 0 }
    rfl rfl rfl
  exact ⟨h.1.1, h.1.2.1, h.1.2.2.2.2.2.1⟩

/-- C6: in every reachable program state, whenever the machine rests in
`IDLE` both motor pins are low (no direction at all is asserted), and
whenever it rests in `EXTENDING_PAUSED` both pins are low as well (in
particular the forward pair is never asserted).  The per-step motor
commands of the source only assert a direction as part of a transition
whose target is a moving state, so the observable stationary states
never carry a driven pin. -/
theorem C6_no_drive_while_idle_or_paused (sc t0 m0 : Bool)
    (inputs : List TickInputs) :
    ((run sc (initMachine t0 m0) inputs).current_state = ArmState.IDLE →
      (run sc (initMachine t0 m0) inputs).motor_pin_a = false ∧
      (run sc (initMachine t0 m0) inputs).motor_pin_b = false) ∧
    ((run sc (initMachine t0 m0) inputs).current_state =
        ArmState.EXTENDING_PAUSED →
      (run sc (initMachine t0 m0) inputs).motor_pin_a = false ∧
      (run sc (initMachine t0 m0) inputs).motor_pin_b = false) := by
  have h := invMotorIdle_run sc (initMachine t0 m0) inputs (invMotorIdle_init t0 m0)
  exact ⟨fun hs => h (Or.inl hs), fun hs => h (Or.inr hs)⟩

/-- C6 witness: the stationary-state pin invariant read back on a
concrete reachable paused state. -/
theorem C6_witness :
    (run true (initMachine false true) (c5i1 :: c5i2 :: [])).motor_pin_a = false ∧
    (run true (initMachine false true) (c5i1 :: c5i2 :: [])).motor_pin_b = false :=
  (C6_no_drive_while_idle_or_paused true false true (c5i1 :: c5i2 :: [])).2 (by decide)

/-- C7 (amended): a limit-switch release edge leaves the machine
completely unchanged when the state is `IDLE`, `EXTENDING` or
`RETRACTING` (the list the source checks), but the defensive reset does
fire for `EXTENDING_PAUSED`, the one enum value missing from that list:
there it stops the motor and forces `IDLE`. -/
theorem C7_release_edge_effect (m : Machine) :
    ((m.current_state = ArmState.IDLE ∨ m.current_state = ArmState.EXTENDING ∨
        m.current_state = ArmState.RETRACTING) →
      handle_microswitch_released m = m) ∧
    (m.current_state = ArmState.EXTENDING_PAUSED →
      (handle_microswitch_released m).current_state = ArmState.IDLE ∧
      (handle_microswitch_released m).motor_pin_a = false ∧
      (handle_microswitch_released m).motor_pin_b = false) := by
  constructor
  · intro h
    unfold handle_microswitch_released
    rw [if_pos h]
  · intro h
    unfold handle_microswitch_released motor_stop set_state
    rw [if_neg (by simp [h])]
    exact ⟨rfl, rfl, rfl⟩

/-- C7 counterexample: a release edge fed while the state is
`EXTENDING_PAUSED`, one of the four enum values, does change the state:
the handler resets it to `IDLE`.  The claim that the reset fires only
for a state outside the closed enum is false on the code. -/
theorem C7_counterexample :
    c7mach.current_state = ArmState.EXTENDING_PAUSED ∧
    (handle_microswitch_released c7mach).current_state = ArmState.IDLE ∧
    handle_microswitch_released c7mach ≠ c7mach := by
  decide

/-- C7 witness. -/
theorem C7_witness :
    handle_microswitch_released c7wmach = c7wmach :=
  (C7_release_edge_effect c7wmach).1 (Or.inr (Or.inl rfl))

/-- C9: a toggle Low to High edge while the state is not `IDLE` leaves
the machine entirely unchanged: state, cycle timing and motor pins. -/
theorem C9_toggle_high_noop_when_not_idle (sc : Bool) (m : Machine) (rp : Bool)
    (t1 t2 t3 : ℤ) (h : m.current_state ≠ ArmState.IDLE) :
    handle_toggle_change sc m true rp t1 t2 t3 = m := by
  unfold handle_toggle_change
  simp [h]

/-- C9 witness. -/
theorem C9_witness :
    handle_toggle_change true c7mach true false 0 0 0 = c7mach :=
  C9_toggle_high_noop_when_not_idle true c7mach false 0 0 0 (by decide)

/-- C8: the motor pin discipline.  The three constant calls write
exactly the Stopped, Forward and Reverse pairs.  A pulsed call whose
phase period has elapsed flips the phase and writes the direction pair
in the on phase and the both-low Stopped pair in the off phase.  Pulsed
calls never manufacture a both-high pair from a legal one, and in every
reachable program state the two pins are never both high. -/
theorem C8_motor_pin_discipline (m : Machine) (t : ℤ) (sc t0 m0 : Bool)
    (inputs : List TickInputs)
    (ht : (if m.motor_pulse_state then MOTOR_ON_TIME else MOTOR_OFF_TIME) ≤
      t - m.motor_pulse_last_time) :
    ((motor_stop m).motor_pin_a = false ∧ (motor_stop m).motor_pin_b = false) ∧
    ((motor_forward m).motor_pin_a = false ∧ (motor_forward m).motor_pin_b = true) ∧
    ((motor_reverse m).motor_pin_a = true ∧ (motor_reverse m).motor_pin_b = false) ∧
    ((motor_forward_pulsed m t).motor_pin_a = false ∧
     (motor_forward_pulsed m t).motor_pin_b = !m.motor_pulse_state) ∧
    ((motor_reverse_pulsed m t).motor_pin_a = !m.motor_pulse_state ∧
     (motor_reverse_pulsed m t).motor_pin_b = false) ∧
    (¬(m.motor_pin_a = true ∧ m.motor_pin_b = true) →
      ∀ s : ℤ, ¬((motor_forward_pulsed m s).motor_pin_a = true ∧
          (motor_forward_pulsed m s).motor_pin_b = true) ∧
        ¬((motor_reverse_pulsed m s).motor_pin_a = true ∧
          (motor_reverse_pulsed m s).motor_pin_b = true)) ∧
    ¬((run sc (initMachine t0 m0) inputs).motor_pin_a = true ∧
      (run sc (initMachine t0 m0) inputs).motor_pin_b = true) := by
  refine ⟨⟨rfl, rfl⟩, ⟨rfl, rfl⟩, ⟨rfl, rfl⟩, ?_, ?_, ?_, ?_⟩
  · unfold motor_forward_pulsed
    rw [if_pos ht]
    cases hps : m.motor_pulse_state <;> simp [hps]
  · unfold motor_reverse_pulsed
    rw [if_pos ht]
    cases hps : m.motor_pulse_state <;> simp [hps]
  · intro hnb s
    constructor
    · unfold motor_forward_pulsed
      split_ifs <;> simp_all
    · unfold motor_reverse_pulsed
      split_ifs <;> simp_all
  · exact invNotBoth_run sc (initMachine t0 m0) inputs (invNotBoth_init t0 m0)

/-- C8 witness. -/
theorem C8_witness :
    (motor_reverse_pulsed c8mach 100).motor_pin_a = false ∧
    (motor_reverse_pulsed c8mach 100).motor_pin_b = false ∧
    (motor_forward_pulsed c8mach 100).motor_pin_b = false := by
  have h := C8_motor_pin_discipline c8mach 100 true false false [] (by decide)
  refine ⟨?_, ?_, ?_⟩
  · have := h.2.2.2.2.1.1
    simpa [c8mach] using this
  · exact h.2.2.2.2.1.2
  · have := h.2.2.2.1.2
    simpa [c8mach] using this

/-- C10: starting from the initial state, under inputs whose pause
duration draws lie in the configured uniform range, whenever the
machine rests in `EXTENDING_PAUSED` its pause timing is set:
`pause_start_time` holds a timestamp and `pause_duration` is at least
`PAUSE_DELAY_MIN`, which is positive — so the guard of the fallback
branch (`pause_start_time is None or pause_duration == 0`) is false and
that branch never runs. -/
theorem C10_pause_fallback_unreachable (sc t0 m0 : Bool)
    (inputs : List TickInputs)
    (hv : ∀ i ∈ inputs, PAUSE_DELAY_MIN ≤ i.dPause ∧ i.dPause ≤ PAUSE_DELAY_MAX)
    (h : (run sc (initMachine t0 m0) inputs).current_state =
      ArmState.EXTENDING_PAUSED) :
    (run sc (initMachine t0 m0) inputs).pause_start_time ≠ none ∧
    PAUSE_DELAY_MIN ≤ (run sc (initMachine t0 m0) inputs).pause_duration ∧
    (0 : ℤ) < PAUSE_DELAY_MIN ∧
    ¬((run sc (initMachine t0 m0) inputs).pause_start_time = none ∨
      (run sc (initMachine t0 m0) inputs).pause_duration = 0) := by
  have ht := invPauseTiming_run sc (initMachine t0 m0) inputs
    (fun j hj => (hv j hj).1) (invPauseTiming_init t0 m0) h
  refine ⟨ht.1, ht.2, by decide, ?_⟩
  rintro (hc | hc)
  · exact ht.1 hc
  · have h2 := ht.2
    rw [hc] at h2
    exact absurd h2 (by decide)

/-- C10 witness: a concrete two-tick run that reaches
`EXTENDING_PAUSED` with valid uniform draws. -/
theorem C10_witness :
    (run true (initMachine false true) [c5i1, c5i2]).pause_start_time ≠ none ∧
    PAUSE_DELAY_MIN ≤ (run true (initMachine false true) [c5i1, c5i2]).pause_duration := by
  have h := C10_pause_fallback_unreachable true false true [c5i1, c5i2]
    (by decide) (by decide)
  exact ⟨h.1, h.2.1⟩

/-- A tick whose sampled input levels equal the previous-tick caches can
only leave the arm state unchanged or move along the time-driven pause
edges, provided the previous-toggle cache invariant holds. -/
theorem unchanged_inputs_tick (sc : Bool) (m : Machine) (i : TickInputs)
    (hInv : InvPrevToggle m)
    (h1 : i.toggle = m.prev_toggle_state)
    (h2 : i.micro = m.prev_microswitch_state) :
    (tick sc m i).current_state = m.current_state ∨
    (m.current_state = ArmState.EXTENDING ∧
      (tick sc m i).current_state = ArmState.EXTENDING_PAUSED) ∨
    (m.current_state = ArmState.EXTENDING_PAUSED ∧
      (tick sc m i).current_state = ArmState.EXTENDING) := by
  have htick : tick sc m i =
      loop_microswitch_edge (loop_motor_tick sc (loop_toggle_low_check sc
        (loop_pause_resume sc (loop_pause_trigger (loop_toggle_edge sc m i) i) i)
        i) i) i := rfl
  have e1 : loop_toggle_edge sc m i = m := toggle_edge_skip sc m i h1
  rw [htick, e1]
  cases hst : m.current_state with
  | IDLE =>
    rw [pause_trigger_skip_state m i (by rw [hst]; simp)]
    rw [pause_resume_skip sc m i (by rw [hst]; simp)]
    rw [toggle_low_skip_state sc m i (by rw [hst]; simp)]
    rw [motor_tick_skip sc m i (by rw [hst]; simp) (by rw [hst]; simp)]
    rw [micro_edge_skip m i h2]
    left
    exact hst
  | RETRACTING =>
    rw [pause_trigger_skip_state m i (by rw [hst]; simp)]
    rw [pause_resume_skip sc m i (by rw [hst]; simp)]
    rw [toggle_low_skip_state sc m i (by rw [hst]; simp)]
    have hc5 := motor_tick_control sc m i
    rw [micro_edge_skip _ i (by rw [hc5.2.2.1]; exact h2)]
    left
    rw [hc5.1]
    exact hst
  | EXTENDING =>
    have htog : i.toggle = true := by rw [h1, hInv (Or.inl hst)]
    rcases pause_trigger_cases m i with hc | ⟨_, _, heq⟩
    · rw [hc]
      rw [pause_resume_skip sc m i (by rw [hst]; simp)]
      rw [toggle_low_skip_toggle sc m i htog]
      have hc5 := motor_tick_control sc m i
      rw [micro_edge_skip _ i (by rw [hc5.2.2.1]; exact h2)]
      left
      rw [hc5.1]
      exact hst
    · have hRcs : (loop_pause_trigger m i).current_state =
          ArmState.EXTENDING_PAUSED := by rw [heq]
      have hRpm : (loop_pause_trigger m i).prev_microswitch_state =
          m.prev_microswitch_state := by rw [heq]
      rcases pause_resume_cases sc (loop_pause_trigger m i) i hRcs with
        hc3 | ⟨hcs3, _, _, _, _, hpm3, _, _⟩
      · have hm3cs : (loop_pause_resume sc (loop_pause_trigger m i) i).current_state =
            ArmState.EXTENDING_PAUSED := by
          rw [hc3]
          simpa [motor_stop] using hRcs
        have hm3pm : (loop_pause_resume sc (loop_pause_trigger m i) i).prev_microswitch_state =
            m.prev_microswitch_state := by
          rw [hc3]
          simpa [motor_stop] using hRpm
        rw [toggle_low_skip_toggle sc _ i htog]
        have hc5 := motor_tick_control sc
          (loop_pause_resume sc (loop_pause_trigger m i) i) i
        rw [micro_edge_skip _ i (by rw [hc5.2.2.1, hm3pm]; exact h2)]
        right
        left
        refine ⟨rfl, ?_⟩
        rw [hc5.1]
        exact hm3cs
      · rw [toggle_low_skip_toggle sc _ i htog]
        have hc5 := motor_tick_control sc
          (loop_pause_resume sc (loop_pause_trigger m i) i) i
        rw [micro_edge_skip _ i (by rw [hc5.2.2.1, hpm3, hRpm]; exact h2)]
        left
        rw [hc5.1, hcs3]
  | EXTENDING_PAUSED =>
    have htog : i.toggle = true := by rw [h1, hInv (Or.inr hst)]
    rw [pause_trigger_skip_state m i (by rw [hst]; simp)]
    rcases pause_resume_cases sc m i hst with hc3 | ⟨hcs3, _, _, _, _, hpm3, _, _⟩
    · have hm3cs : (loop_pause_resume sc m i).current_state =
          ArmState.EXTENDING_PAUSED := by
        rw [hc3]
        simpa [motor_stop] using hst
      have hm3pm : (loop_pause_resume sc m i).prev_microswitch_state =
          m.prev_microswitch_state := by
        rw [hc3]
        simp [motor_stop]
      rw [toggle_low_skip_toggle sc _ i htog]
      have hc5 := motor_tick_control sc (loop_pause_resume sc m i) i
      rw [micro_edge_skip _ i (by rw [hc5.2.2.1, hm3pm]; exact h2)]
      left
      rw [hc5.1, hm3cs]
    · rw [toggle_low_skip_toggle sc _ i htog]
      have hc5 := motor_tick_control sc (loop_pause_resume sc m i) i
      rw [micro_edge_skip _ i (by rw [hc5.2.2.1, hpm3]; exact h2)]
      right
      right
      refine ⟨rfl, ?_⟩
      rw [hc5.1]
      exact hcs3

/-- C5 (amended): from any reachable state, a poll iteration whose two
sampled levels equal the previous-tick caches leaves the arm state
unchanged, except for the two time-driven pause transitions: Extending
to ExtendingPaused (pause trigger) and ExtendingPaused to Extending
(pause expiry), which fire on elapsed time alone. -/
theorem C5_unchanged_inputs_amended (sc t0 m0 : Bool)
    (inputs : List TickInputs) (i : TickInputs)
    (h1 : i.toggle = (run sc (initMachine t0 m0) inputs).prev_toggle_state)
    (h2 : i.micro = (run sc (initMachine t0 m0) inputs).prev_microswitch_state) :
    (tick sc (run sc (initMachine t0 m0) inputs) i).current_state =
      (run sc (initMachine t0 m0) inputs).current_state ∨
    ((run sc (initMachine t0 m0) inputs).current_state = ArmState.EXTENDING ∧
      (tick sc (run sc (initMachine t0 m0) inputs) i).current_state =
        ArmState.EXTENDING_PAUSED) ∨
    ((run sc (initMachine t0 m0) inputs).current_state =
        ArmState.EXTENDING_PAUSED ∧
      (tick sc (run sc (initMachine t0 m0) inputs) i).current_state =
        ArmState.EXTENDING) :=
  unchanged_inputs_tick sc _ i (invPrevToggle_run sc t0 m0 inputs) h1 h2

/-- C5 counterexample: after one tick from the initial state the machine
is reachable in `EXTENDING` with the pause scheduled; the next tick
samples exactly the same levels as the caches, yet the arm state changes
to `EXTENDING_PAUSED`, because the pause trigger fires on elapsed time
alone.  Repeated ticks with unchanged input levels do change ArmState. -/
theorem C5_counterexample :
    c5i2.toggle = (run true (initMachine false true) [c5i1]).prev_toggle_state ∧
    c5i2.micro = (run true (initMachine false true) [c5i1]).prev_microswitch_state ∧
    (run true (initMachine false true) [c5i1]).current_state = ArmState.EXTENDING ∧
    (tick true (run true (initMachine false true) [c5i1]) c5i2).current_state =
      ArmState.EXTENDING_PAUSED := by
  decide

/-- C5 witness: the amended theorem at the initial state with matching
levels. -/
theorem C5_witness :
    (tick true (run true (initMachine false true) []) c5w).current_state =
      (run true (initMachine false true) []).current_state ∨
    ((run true (initMachine false true) []).current_state = ArmState.EXTENDING ∧
      (tick true (run true (initMachine false true) []) c5w).current_state =
        ArmState.EXTENDING_PAUSED) ∨
    ((run true (initMachine false true) []).current_state =
        ArmState.EXTENDING_PAUSED ∧
      (tick true (run true (initMachine false true) []) c5w).current_state =
        ArmState.EXTENDING) :=
  C5_unchanged_inputs_amended true false true [] c5w (by decide) (by decide)

/-- Helper: once the machine sits in `EXTENDING` or
`EXTENDING_PAUSED` before the continuous toggle-low check of a tick
whose toggle sample is low and whose limit-switch sample causes no
edge, the rest of the tick ends in `RETRACTING`. -/
theorem low_toggle_finishes (sc : Bool) (mm : Machine) (i : TickInputs)
    (hst : mm.current_state = ArmState.EXTENDING ∨
      mm.current_state = ArmState.EXTENDING_PAUSED)
    (h5 : i.toggle = false) (h7 : i.micro = mm.prev_microswitch_state) :
    (loop_microswitch_edge
      (loop_motor_tick sc (loop_toggle_low_check sc mm i) i) i).current_state =
      ArmState.RETRACTING := by
  have hf := toggle_low_fire sc mm i hst h5
  have hc5 := motor_tick_control sc (loop_toggle_low_check sc mm i) i
  rw [micro_edge_skip _ i (by rw [hc5.2.2.1, hf.2.2.1]; exact h7)]
  rw [hc5.1]
  exact hf.1

/-- C3: within one tick, the pause trigger runs before the continuous
toggle-low check.  When the machine is extending with a due pause and
the toggle sample of the tick is already low (with no toggle edge and no
limit edge), the pause engages mid-tick — after the pause trigger the
state is `EXTENDING_PAUSED` and the flag is consumed — and the tick
still ends in `RETRACTING` because the toggle-low check fires
afterwards.  Moreover a low toggle sample while in `EXTENDING_PAUSED`
(again with no limit edge) always ends the tick in `RETRACTING`. -/
theorem C3_pause_engages_then_toggle_low_fires (sc : Bool) (m m2 : Machine)
    (i i2 : TickInputs) (e0 : ℤ)
    (h1 : m.current_state = ArmState.EXTENDING)
    (h2 : m.should_pause_this_cycle = true)
    (h3 : m.extension_start_time = some e0)
    (h4 : PAUSE_AFTER_TIME ≤ i.tElapsed - e0)
    (h5 : i.toggle = false)
    (h6 : m.prev_toggle_state = false)
    (h7 : i.micro = m.prev_microswitch_state)
    (hb1 : m2.current_state = ArmState.EXTENDING_PAUSED)
    (hb2 : i2.toggle = false)
    (hb3 : i2.micro = m2.prev_microswitch_state) :
    (loop_pause_trigger (loop_toggle_edge sc m i) i).current_state =
      ArmState.EXTENDING_PAUSED ∧
    (loop_pause_trigger (loop_toggle_edge sc m i) i).should_pause_this_cycle =
      false ∧
    (tick sc m i).current_state = ArmState.RETRACTING ∧
    (tick sc m2 i2).current_state = ArmState.RETRACTING := by
  have e1 : loop_toggle_edge sc m i = m := toggle_edge_skip sc m i (by rw [h5, h6])
  have e2 := pause_trigger_fire m i e0 h1 h2 h3 h4
  have htick : tick sc m i =
      loop_microswitch_edge (loop_motor_tick sc (loop_toggle_low_check sc
        (loop_pause_resume sc (loop_pause_trigger (loop_toggle_edge sc m i) i) i)
        i) i) i := rfl
  refine ⟨?_, ?_, ?_, ?_⟩
  · rw [e1, e2]
  · rw [e1, e2]
  · rw [htick, e1]
    have hRcs : (loop_pause_trigger m i).current_state =
        ArmState.EXTENDING_PAUSED := by rw [e2]
    have hRpm : (loop_pause_trigger m i).prev_microswitch_state =
        m.prev_microswitch_state := by rw [e2]
    rcases pause_resume_cases sc (loop_pause_trigger m i) i hRcs with
      hc3 | ⟨hcs3, _, _, _, _, hpm3, _, _⟩
    · refine low_toggle_finishes sc _ i (Or.inr ?_) h5 ?_
      · rw [hc3]
        simpa [motor_stop] using hRcs
      · rw [hc3]
        show i.micro = (loop_pause_trigger m i).prev_microswitch_state
        rw [hRpm]
        exact h7
    · refine low_toggle_finishes sc _ i (Or.inl hcs3) h5 ?_
      rw [hpm3, hRpm]
      exact h7
  · have htick2 : tick sc m2 i2 =
        loop_microswitch_edge (loop_motor_tick sc (loop_toggle_low_check sc
          (loop_pause_resume sc (loop_pause_trigger (loop_toggle_edge sc m2 i2) i2)
          i2) i2) i2) i2 := rfl
    rw [htick2]
    cases hpt : m2.prev_toggle_state
    · have e1b : loop_toggle_edge sc m2 i2 = m2 :=
        toggle_edge_skip sc m2 i2 (by rw [hb2, hpt])
      rw [e1b]
      rw [pause_trigger_skip_state m2 i2 (by rw [hb1]; simp)]
      rcases pause_resume_cases sc m2 i2 hb1 with hc3 | ⟨hcs3, _, _, _, _, hpm3, _, _⟩
      · refine low_toggle_finishes sc _ i2 (Or.inr ?_) hb2 ?_
        · rw [hc3]
          simpa [motor_stop] using hb1
        · rw [hc3]
          simpa [motor_stop] using hb3
      · refine low_toggle_finishes sc _ i2 (Or.inl hcs3) hb2 ?_
        rw [hpm3]
        exact hb3
    · have hf := toggle_edge_low_fire sc m2 i2 hb2 hpt (Or.inr hb1)
      rw [pause_trigger_skip_state _ i2 (by rw [hf.1]; simp)]
      rw [pause_resume_skip sc _ i2 (by rw [hf.1]; simp)]
      rw [toggle_low_skip_state sc _ i2 (by rw [hf.1]; simp)]
      have hc5 := motor_tick_control sc (loop_toggle_edge sc m2 i2) i2
      rw [micro_edge_skip _ i2 (by rw [hc5.2.2.1, hf.2.2.1]; exact hb3)]
      rw [hc5.1]
      exact hf.1

/-- C3 witness: the theorem at a concrete extending machine with a due
pause and a concrete paused machine, both sampled low. -/
theorem C3_witness :
    (loop_pause_trigger (loop_toggle_edge true c3mach c3i) c3i).current_state =
      ArmState.EXTENDING_PAUSED ∧
    (loop_pause_trigger (loop_toggle_edge true c3mach c3i) c3i).should_pause_this_cycle =
      false ∧
    (tick true c3mach c3i).current_state = ArmState.RETRACTING ∧
    (tick true c3pmach c3pi).current_state = ArmState.RETRACTING :=
  C3_pause_engages_then_toggle_low_fires true c3mach c3pmach c3i c3pi 0
    rfl rfl rfl (by decide) rfl rfl rfl rfl rfl rfl

/-- C4: the pause fires at most once per cycle and only when the
Bernoulli draw at the cycle start said so.  Concretely: (a) in every
reachable state `should_pause_this_cycle` can be true only while
`EXTENDING`; (b) the pause trigger is the only step that can move the
machine into `EXTENDING_PAUSED`, it does so only from `EXTENDING` with
the flag armed, and it consumes the flag; all other steps never enter
`EXTENDING_PAUSED`; (c) the flag can become armed only on a tick whose
toggle edge runs the Idle to Extending transition with the Bernoulli
draw true, and such a tick ends in `EXTENDING` — so between two pause
entries a fresh cycle start with a true draw must occur. -/
theorem C4_pause_at_most_once_per_cycle (sc t0 m0 : Bool)
    (inputs : List TickInputs) (m : Machine) (i : TickInputs) :
    InvPause (run sc (initMachine t0 m0) inputs) ∧
    ((loop_pause_trigger m i).current_state = ArmState.EXTENDING_PAUSED →
      m.current_state ≠ ArmState.EXTENDING_PAUSED →
      m.current_state = ArmState.EXTENDING ∧
      m.should_pause_this_cycle = true ∧
      (loop_pause_trigger m i).should_pause_this_cycle = false) ∧
    ((loop_toggle_edge sc m i).current_state = ArmState.EXTENDING_PAUSED →
      m.current_state = ArmState.EXTENDING_PAUSED) ∧
    ((loop_pause_resume sc m i).current_state = ArmState.EXTENDING_PAUSED →
      m.current_state = ArmState.EXTENDING_PAUSED) ∧
    ((loop_toggle_low_check sc m i).current_state = ArmState.EXTENDING_PAUSED →
      m.current_state = ArmState.EXTENDING_PAUSED) ∧
    ((loop_motor_tick sc m i).current_state = ArmState.EXTENDING_PAUSED →
      m.current_state = ArmState.EXTENDING_PAUSED) ∧
    ((loop_microswitch_edge m i).current_state = ArmState.EXTENDING_PAUSED →
      m.current_state = ArmState.EXTENDING_PAUSED) ∧
    (m.should_pause_this_cycle = false →
      (tick sc m i).should_pause_this_cycle = true →
      m.current_state = ArmState.IDLE ∧ i.randPause = true ∧
      (tick sc m i).current_state = ArmState.EXTENDING) := by
  refine ⟨invPause_run sc (initMachine t0 m0) inputs (invPause_init t0 m0),
    fun hp hne => pause_trigger_entry m i hp hne,
    toggle_edge_no_pause_entry sc m i,
    pause_resume_no_pause_entry sc m i,
    toggle_low_no_pause_entry sc m i,
    motor_tick_no_pause_entry sc m i,
    micro_edge_no_pause_entry m i,
    ?_⟩
  intro hpre hpost
  have htick : tick sc m i =
      loop_microswitch_edge (loop_motor_tick sc (loop_toggle_low_check sc
        (loop_pause_resume sc (loop_pause_trigger (loop_toggle_edge sc m i) i) i)
        i) i) i := rfl
  rw [htick] at hpost
  have h5sp := micro_edge_sp_conservative _ i hpost
  have hc5 := motor_tick_control sc
    (loop_toggle_low_check sc
      (loop_pause_resume sc (loop_pause_trigger (loop_toggle_edge sc m i) i) i) i) i
  rw [hc5.2.2.2.2.1] at h5sp
  have e4 := toggle_low_sp_noop sc _ i h5sp
  rw [e4] at h5sp
  have h2sp : (loop_pause_trigger (loop_toggle_edge sc m i) i).should_pause_this_cycle
      = true := by
    rw [pause_resume_sp_eq] at h5sp
    exact h5sp
  have e2 := pause_trigger_sp_noop _ i h2sp
  rw [e2] at h2sp
  rcases toggle_edge_sp sc m i h2sp with hc | ⟨hidle, hrand, hext⟩
  · rw [hpre] at hc
    cases hc
  refine ⟨hidle, hrand, ?_⟩
  have e3 : loop_pause_resume sc (loop_pause_trigger (loop_toggle_edge sc m i) i) i
      = loop_pause_trigger (loop_toggle_edge sc m i) i := by
    apply pause_resume_skip
    rw [e2, hext]
    simp
  rw [e3, e2] at e4 hpost
  rw [htick, e3, e2, e4]
  have hc5b := motor_tick_control sc (loop_toggle_edge sc m i) i
  apply micro_edge_sp_state
  · rw [hc5b.1]
    exact hext
  · rw [e4] at hpost
    exact hpost

/-- C4 witness: after one tick from the initial state the machine is
extending with the flag armed; the pause trigger of the next tick
enters the paused state and consumes the flag. -/
theorem C4_witness :
    (run true (initMachine false true) [c5i1]).current_state =
      ArmState.EXTENDING ∧
    (run true (initMachine false true) [c5i1]).should_pause_this_cycle = true ∧
    (loop_pause_trigger (run true (initMachine false true) [c5i1])
      c5i2).should_pause_this_cycle = false :=
  (C4_pause_at_most_once_per_cycle true false true [c5i1]
    (run true (initMachine false true) [c5i1]) c5i2).2.1 (by decide) (by decide)

end UselessBox
